import Mathlib

/-!
# Verification of `clux.py` — console-prompt validators

Shallow embedding of the CK* validator library (`src/clux.py`): the shared
interactive prompt loop (`CKUI.__call__`), the menu loop (`CKITEM.__call__`),
and the per-rule `validate` methods, together with proofs of the behavioural
claims about them.

Modelling conventions:
* one line of console input per `input()` call; the input stream is a
  `List String`, and end-of-list is `EOFError` (end-of-input);
* console output is accumulated as a `List String`;
* Python exceptions become explicit result constructors: `Invalid` and
  `AttributeError` in validators, `UserQuit` / `ValueError` at call level;
* Python `str.lower` is modelled for the ASCII range (`pyLower`);
* Python truthiness (`while not response:`) is an explicit `truthy`
  function on the canonical-value type (`0` and `""` are falsy);
* `re.compile(...).match` is abstracted to an opaque-to-the-loop predicate
  `String → Bool` ("matches starting at position 0").
-/

namespace Clux

/-- ASCII lowering of one character, as Python `str.lower` acts on ASCII. -/
def pyLowerChar (c : Char) : Char :=
  if 'A' ≤ c ∧ c ≤ 'Z' then Char.ofNat (c.toNat + 32) else c

/-- Model of Python `str.lower` (ASCII range). -/
def pyLower (s : String) : String :=
  ⟨s.data.map pyLowerChar⟩

/-- Model of Python `str.startswith`: `pyStartswith s p` ↔ `s.startswith(p)`. -/
def pyStartswith (s p : String) : Bool :=
  p.data.isPrefixOf s.data

/-- Is `c` an ASCII whitespace character stripped by Python `int()`? -/
def pyIsSpace (c : Char) : Bool :=
  c = ' ' ∨ c = '\t' ∨ c = '\n' ∨ c = '\x0d' ∨ c = '\x0b' ∨ c = '\x0c'

/-- Accumulate base-10 digits, allowing single `_` separators between digits,
as Python `int()` does after the sign. -/
def digitsCore (acc : Nat) : List Char → Option Nat
  | [] => some acc
  | c :: cs =>
    if c.isDigit then digitsCore (10 * acc + (c.toNat - 48)) cs
    else if c = '_' then
      match cs with
      | c2 :: cs2 =>
        if c2.isDigit then digitsCore (10 * acc + (c2.toNat - 48)) cs2 else none
      | [] => none
    else none

/-- Parse a nonempty digit string (underscore separators allowed). -/
def pyDigits : List Char → Option Nat
  | [] => none
  | c :: cs => if c.isDigit then digitsCore (c.toNat - 48) cs else none

/-- Parse a signed decimal numeral (after whitespace stripping). -/
def pyIntCore : List Char → Option Int
  | '+' :: rest => (pyDigits rest).map Int.ofNat
  | '-' :: rest => (pyDigits rest).map (fun n => -(n : Int))
  | cs => (pyDigits cs).map Int.ofNat

/-- Model of Python `int(text)` for base 10: strip surrounding whitespace,
optional sign, nonempty digits with optional `_` separators; `none` models
the `ValueError` raised on any other shape. -/
def pyInt (s : String) : Option Int :=
  pyIntCore (((s.data.dropWhile pyIsSpace).reverse.dropWhile pyIsSpace).reverse)

/-- The tag carried by `Invalid` in `CKITEM.validate` / `CKKEYWD.validate`
(`InputType.NUMERIC` / `InputType.TEXT` in the source). -/
inductive InputType : Type
  | numeric
  | text
deriving DecidableEq, Repr

/-- An exception escaping a `validate` method: `Invalid` (optionally tagged
with an `InputType`), or the `AttributeError` a fresh `CKSTR` raises. -/
inductive PyErr : Type
  | invalid : Option InputType → PyErr
  | attrError
deriving DecidableEq, Repr

/-- Outcome of one interactive call: a canonical value, `UserQuit`, an
uncaught non-`Invalid` exception from `validate`, or the `ValueError`
raised for a missing required configuration parameter. -/
inductive RunRes (V : Type) : Type
  | ok : V → RunRes V
  | userQuit
  | fatal : PyErr → RunRes V
  | configError
deriving DecidableEq, Repr

/-- Python truthiness of an `int` (`CKINT`/`CKRANGE` canonical values). -/
def intTruthy (v : Int) : Bool := v ≠ 0

/-- Python truthiness of a `str` (string-valued canonical values). -/
def strTruthy (s : String) : Bool := s ≠ ""

/-- `CKUI.validate` (lines 72-74): the base rule accepts any text verbatim. -/
def ckuiValidate (text : String) : Except PyErr String :=
  .ok text

/-- `CKINT.validate`: `int(text)` or `Invalid`. -/
def ckintValidate (text : String) : Except PyErr Int :=
  match pyInt text with
  | some v => .ok v
  | none => .error (.invalid none)

/-- `CKRANGE.validate`: `int(text)`, then require `lower <= v <= upper`. -/
def ckrangeValidate (lower upper : Int) (text : String) : Except PyErr Int :=
  match pyInt text with
  | some v => if lower ≤ v ∧ v ≤ upper then .ok v else .error (.invalid none)
  | none => .error (.invalid none)

/-- Default `lower` bound of `CKRANGE.__call__` (`-2**31`). -/
def ckrangeLowerDefault : Int := -(2 ^ 31)

/-- Default `upper` bound of `CKRANGE.__call__` (`2**31-1`). -/
def ckrangeUpperDefault : Int := 2 ^ 31 - 1

/-- `CKRANGE.ERROR` after `format_map` interpolation of `lower`/`upper`. -/
def ckrangeError (lower upper : Int) : String :=
  "ERROR - Please enter an integer between " ++ toString lower ++ " and "
    ++ toString upper ++ "."

/-- `CKYORN.validate`: lowercase, map `y`/`n` through `CANONICAL`, pass
`yes`/`no` through, otherwise `Invalid`. -/
def ckyornValidate (text : String) : Except PyErr String :=
  let cleanText := pyLower text
  if cleanText = "y" ∨ cleanText = "n" then
    .ok (if cleanText = "y" then "yes" else "no")
  else if cleanText = "yes" ∨ cleanText = "no" then
    .ok cleanText
  else .error (.invalid none)

/-- The loop body of `CKITEM.validate` / `CKKEYWD.validate` collecting every
item of which the lowercased input is a literal prefix. -/
def prefixMatches (items : List String) (text : String) : List String :=
  items.filter (fun item => pyStartswith item (pyLower text))

/-- `CKITEM.validate`: integer inputs index the combined list 1-based;
non-integer inputs must prefix-match exactly one item. -/
def ckitemValidate (items : List String) (text : String) : Except PyErr String :=
  match pyInt text with
  | some itemNum =>
    if 1 ≤ itemNum ∧ itemNum ≤ (items.length : Int) then
      .ok (items.getD (itemNum - 1).toNat "")
    else .error (.invalid (some .numeric))
  | none =>
    match prefixMatches items text with
    | [m] => .ok m
    | _ => .error (.invalid (some .text))

/-- `CKKEYWD.validate`: non-integer-aware prefix match, exactly one hit. -/
def ckkeywdValidate (items : List String) (text : String) : Except PyErr String :=
  match prefixMatches items text with
  | [m] => .ok m
  | _ => .error (.invalid (some .text))

/-- The `regexp` attribute of a `CKSTR` instance: `none` models the attribute
never having been assigned (a fresh instance — reading it raises
`AttributeError`); `some none` models `self.regexp = None`; `some (some m)`
models a compiled pattern whose `.match(text)` truthiness is `m text`. -/
abbrev CkstrRegexpAttr : Type := Option (Option (String → Bool))

/-- `CKSTR.validate`: reading `self.regexp` on a fresh instance raises
`AttributeError` (uncaught — the surrounding `try` only guards the `match`
call); with `regexp = None` any text is returned verbatim; with a compiled
pattern, return the text iff the pattern matches from position 0. -/
def ckstrValidate (regexpAttr : CkstrRegexpAttr) (text : String) :
    Except PyErr String :=
  match regexpAttr with
  | none => .error .attrError
  | some none => .ok text
  | some (some m) => if m text then .ok text else .error (.invalid none)

/-- Is an input line the quit token (`a.lower() in ['q', 'quit']`)? -/
def isQuit (a : String) : Bool :=
  pyLower a = "q" ∨ pyLower a = "quit"

/-- The core interaction loop of `CKUI.__call__` (lines 89-106).

Arguments: the `validate` function of the concrete rule, Python truthiness
on the canonical-value type, the already-formatted prompt message
(`"{prompt} [{hint}]: "`), the printed help and error texts, the `default`
parameter, the remaining input lines, and the current Python `response`
variable (`none` = Python `None`).

Returns (console output, call outcome, input lines left unread).
The `while not response:` guard is the truthiness test on `response`;
`EOFError` on an exhausted input stream becomes `UserQuit`. -/
def ckuiRunAux {V : Type} [Inhabited V] (validate : String → Except PyErr V)
    (truthy : V → Bool) (promptMsg helpText errText : String)
    (default : Option V) :
    List String → Option V → List String × RunRes V × List String
  | lines, response =>
    if response.any truthy then ([], .ok response.iget, lines)
    else
      match lines with
      | [] => ([promptMsg], .userQuit, [])
      | a :: rest =>
        if isQuit a then ([promptMsg], .userQuit, rest)
        else if a = "?" then
          let (o, r, rem) :=
            ckuiRunAux validate truthy promptMsg helpText errText default
              rest response
          (promptMsg :: helpText :: o, r, rem)
        else if a = "" ∧ default.isSome then
          let (o, r, rem) :=
            ckuiRunAux validate truthy promptMsg helpText errText default
              rest default
          (promptMsg :: o, r, rem)
        else
          match validate a with
          | .ok v =>
            let (o, r, rem) :=
              ckuiRunAux validate truthy promptMsg helpText errText default
                rest (some v)
            (promptMsg :: o, r, rem)
          | .error (.invalid _) =>
            let (o, r, rem) :=
              ckuiRunAux validate truthy promptMsg helpText errText default
                rest response
            (promptMsg :: errText :: o, r, rem)
          | .error .attrError => ([promptMsg], .fatal .attrError, rest)

/-- `CKUI.__call__` entered with `response = None`. -/
def ckuiCall {V : Type} [Inhabited V] (validate : String → Except PyErr V)
    (truthy : V → Bool) (promptMsg helpText errText : String)
    (default : Option V) (lines : List String) :
    List String × RunRes V × List String :=
  ckuiRunAux validate truthy promptMsg helpText errText default lines none

/-- `CKITEM.show_menu`: the label when truthy, then each *visible* choice as
`"{1-based index}: {choice}"`. -/
def showMenu (label : Option String) (menu : List String) : List String :=
  (match label with
   | some s => if strTruthy s then [s] else []
   | none => []) ++
  (List.range menu.length).map
    (fun n => toString (n + 1) ++ ": " ++ menu.getD n "")

/-- The interaction loop of `CKITEM.__call__` (lines 202-221): as the base
loop, plus the `"??"` branch that redisplays the menu. `items` is the
combined visible+invisible list used by `validate`; `menu` the visible one
printed by `show_menu`. -/
def ckitemRunAux (items : List String) (label : Option String)
    (menu : List String) (promptMsg helpText errText : String)
    (default : Option String) :
    List String → Option String → List String × RunRes String × List String
  | lines, response =>
    if response.any strTruthy then ([], .ok response.iget, lines)
    else
      match lines with
      | [] => ([promptMsg], .userQuit, [])
      | a :: rest =>
        if isQuit a then ([promptMsg], .userQuit, rest)
        else if a = "?" then
          let (o, r, rem) :=
            ckitemRunAux items label menu promptMsg helpText errText default
              rest response
          (promptMsg :: helpText :: o, r, rem)
        else if a = "??" then
          let (o, r, rem) :=
            ckitemRunAux items label menu promptMsg helpText errText default
              rest response
          (promptMsg :: showMenu label menu ++ o, r, rem)
        else if a = "" ∧ default.isSome then
          let (o, r, rem) :=
            ckitemRunAux items label menu promptMsg helpText errText default
              rest default
          (promptMsg :: o, r, rem)
        else
          match ckitemValidate items a with
          | .ok v =>
            let (o, r, rem) :=
              ckitemRunAux items label menu promptMsg helpText errText default
                rest (some v)
            (promptMsg :: o, r, rem)
          | .error _ =>
            let (o, r, rem) :=
              ckitemRunAux items label menu promptMsg helpText errText default
                rest response
            (promptMsg :: errText :: o, r, rem)

/-- `CKITEM.__call__` (lines 190-221): `ValueError` when `choices is None`
(before any output or read); otherwise build `items = choices + invisible`,
print the menu once, and run the menu loop. -/
def ckitemCall (label : Option String) (choices : Option (List String))
    (invisible : Option (List String)) (promptMsg helpText errText : String)
    (default : Option String) (lines : List String) :
    List String × RunRes String × List String :=
  match choices with
  | none => ([], .configError, lines)
  | some cs =>
    let items := cs ++ invisible.getD []
    let (o, r, rem) :=
      ckitemRunAux items label cs promptMsg helpText errText default lines none
    (showMenu label cs ++ o, r, rem)

/-- `CKKEYWD.__call__` (lines 242-248): `ValueError` when `keywords is None`,
raised before `super().__call__` prints or reads anything. -/
def ckkeywdCall (keywords : Option (List String))
    (promptMsg helpText errText : String) (default : Option String)
    (lines : List String) : List String × RunRes String × List String :=
  match keywords with
  | none => ([], .configError, lines)
  | some ks =>
    ckuiRunAux (ckkeywdValidate ks) strTruthy promptMsg helpText errText
      default lines none

/-- `CKINT`'s prompt message, `"Enter an integer [?,q]: "`. -/
def ckintPromptMsg : String := "Enter an integer [?,q]: "

/-- A `CKINT` interactive call with default prompt/help/error texts. -/
def ckintCall (default : Option Int) (lines : List String) :
    List String × RunRes Int × List String :=
  ckuiRunAux ckintValidate intTruthy ckintPromptMsg
    "Please enter an integer." "ERROR - Please enter an integer."
    default lines none

/-- `CKSTR.__call__`: `self.regexp` is assigned only when the `regexp`
parameter is not `None`; the resulting attribute state feeds the loop. -/
def ckstrAttrAfterCall (regexpParam : Option (String → Bool))
    (st : CkstrRegexpAttr) : CkstrRegexpAttr :=
  match regexpParam with
  | some r => some (some r)
  | none => st

/-- A `CKSTR` interactive call from attribute state `st` with parameter
`regexpParam` (prompt/help/error texts abstracted to `promptMsg` etc.). -/
def ckstrCall (regexpParam : Option (String → Bool)) (st : CkstrRegexpAttr)
    (promptMsg helpText errText : String) (default : Option String)
    (lines : List String) : List String × RunRes String × List String :=
  ckuiRunAux (ckstrValidate (ckstrAttrAfterCall regexpParam st)) strTruthy
    promptMsg helpText errText default lines none

/-- `CKUI.validate` with the (empty) instance state it reads and writes made
explicit: the method body contains no attribute assignment. -/
def ckuiValidateS (text : String) : Except PyErr String × Unit :=
  (ckuiValidate text, ())

/-- `CKINT.validate` with its (empty) instance state made explicit. -/
def ckintValidateS (text : String) : Except PyErr Int × Unit :=
  (ckintValidate text, ())

/-- `CKITEM.validate` with the instance state it reads (`self.items`) passed
and returned explicitly: the method body contains no attribute assignment,
so the state comes back unchanged. -/
def ckitemValidateS (items : List String) (text : String) :
    Except PyErr String × List String :=
  (ckitemValidate items text, items)

/-- `CKKEYWD.validate` with `self.items` made explicit (no assignment). -/
def ckkeywdValidateS (items : List String) (text : String) :
    Except PyErr String × List String :=
  (ckkeywdValidate items text, items)

/-- `CKRANGE.validate` with `(self.lower, self.upper)` made explicit. -/
def ckrangeValidateS (lower upper : Int) (text : String) :
    Except PyErr Int × (Int × Int) :=
  (ckrangeValidate lower upper text, (lower, upper))

/-- `CKYORN.validate` with its state made explicit (`CANONICAL` is a class
constant the method only reads). -/
def ckyornValidateS (text : String) : Except PyErr String × Unit :=
  (ckyornValidate text, ())

/-- `CKSTR.validate` with `self.regexp` made explicit (no assignment). -/
def ckstrValidateS (st : CkstrRegexpAttr) (text : String) :
    Except PyErr String × CkstrRegexpAttr :=
  (ckstrValidate st text, st)

/-- The result of `datetime.datetime.strptime`: a broken-down date and
time-of-day. -/
structure PyDateTime where
  year : Int
  month : Nat
  day : Nat
  hour : Nat
  minute : Nat
  second : Nat
deriving DecidableEq, Repr

/-- Python `datetime.date(...)`: the date portion of a `PyDateTime`
(`dt.date()`). -/
def pyDateTimeDate (dt : PyDateTime) : Int × Nat × Nat :=
  (dt.year, dt.month, dt.day)

/-- Python `datetime.time(...)`: the time-of-day portion of a `PyDateTime`
(`dt.time()`). -/
def pyDateTimeTime (dt : PyDateTime) : Nat × Nat × Nat :=
  (dt.hour, dt.minute, dt.second)

/-- `CKDATE.validate`: `strptime(text, self.format)` then `.date()`;
any parse failure becomes Invalid. The library parser `strptime` is an
external pure function, abstracted as the parameter
`strptime text format`, `none` modelling a raised parse error. -/
def ckdateValidate (strptime : String → String → Option PyDateTime)
    (format text : String) : Except PyErr (Int × Nat × Nat) :=
  match strptime text format with
  | some dt => .ok (pyDateTimeDate dt)
  | none => .error (.invalid none)

/-- `CKTIME.validate`: `strptime(text, self.format)` then `.time()`;
any parse failure becomes Invalid. -/
def cktimeValidate (strptime : String → String → Option PyDateTime)
    (format text : String) : Except PyErr (Nat × Nat × Nat) :=
  match strptime text format with
  | some dt => .ok (pyDateTimeTime dt)
  | none => .error (.invalid none)

/-- `CKPATH.validate`: build `pathlib.Path(text)`, require `p.root == '/'`,
return `p.absolute()`. The `pathlib` operations are abstracted as the
parameters `pathRoot` and `pathAbsolute` (`absolute()` reads the process
working directory, fixed for the duration of a call). The source's
`except FileNotFoundError` guard is dead — neither operation raises it. -/
def ckpathValidate (pathRoot pathAbsolute : String → String)
    (text : String) : Except PyErr String :=
  if pathRoot text = "/" then .ok (pathAbsolute text)
  else .error (.invalid none)

/-- `CKGID.validate`: lowercase the input and require membership in
`self.groups` (the snapshot `get_groups` loaded at call time). -/
def ckgidValidate (groups : List String) (text : String) :
    Except PyErr String :=
  let name := pyLower text
  if name ∈ groups then .ok name else .error (.invalid none)

/-- `CKUID.validate`: lowercase the input and require membership in
`self.users` (the snapshot `get_users` loaded at call time). -/
def ckuidValidate (users : List String) (text : String) :
    Except PyErr String :=
  let name := pyLower text
  if name ∈ users then .ok name else .error (.invalid none)

/-- `CKDATE.validate` with the instance state it reads (`self.format`)
made explicit (no assignment in the method body). -/
def ckdateValidateS (strptime : String → String → Option PyDateTime)
    (format text : String) : Except PyErr (Int × Nat × Nat) × String :=
  (ckdateValidate strptime format text, format)

/-- `CKTIME.validate` with `self.format` made explicit (no assignment). -/
def cktimeValidateS (strptime : String → String → Option PyDateTime)
    (format text : String) : Except PyErr (Nat × Nat × Nat) × String :=
  (cktimeValidate strptime format text, format)

/-- `CKPATH.validate` with its (empty) instance state made explicit. -/
def ckpathValidateS (pathRoot pathAbsolute : String → String)
    (text : String) : Except PyErr String × Unit :=
  (ckpathValidate pathRoot pathAbsolute text, ())

/-- `CKGID.validate` with `self.groups` made explicit (no assignment). -/
def ckgidValidateS (groups : List String) (text : String) :
    Except PyErr String × List String :=
  (ckgidValidate groups text, groups)

/-- `CKUID.validate` with `self.users` made explicit (no assignment). -/
def ckuidValidateS (users : List String) (text : String) :
    Except PyErr String × List String :=
  (ckuidValidate users text, users)

end Clux

deriving instance DecidableEq for Except

namespace Clux

/-- C1: the claim asserts that a canonical value `v` accepted by `validate`
is returned by the interactive call even when `v` is `0` or `""`. The code's
`while not response:` guard retests Python truthiness of the accepted value,
so `CKINT` with input `"0"` — accepted by `validate` as the integer `0` —
is *not* returned: the loop silently re-prompts, and the call returns the
next accepted value (here `5`), or `UserQuit` at end of input. -/
theorem ckint_zero_accepted_but_reprompted :
    ckintValidate "0" = Except.ok 0 ∧
    ckintCall none ["0", "5"] =
      ([ckintPromptMsg, ckintPromptMsg], RunRes.ok 5, []) ∧
    (ckintCall none ["0"]).2.1 = RunRes.userQuit :=
  ⟨rfl, rfl, rfl⟩

/-- C2: the claim asserts an empty input line returns a configured default
`d` immediately even when `d` is falsy (`0`, `""`). The code assigns
`response = default` but the `while not response:` guard re-loops on a falsy
default: `CKINT` with `default=0` and an empty line re-prompts (no error is
printed — the output is two bare prompts) and returns the next accepted
value, or `UserQuit` at end of input; a truthy default (`3`) is returned
immediately as claimed. -/
theorem ckint_falsy_default_not_returned :
    ckintCall (some 0) ["", "7"] =
      ([ckintPromptMsg, ckintPromptMsg], RunRes.ok 7, []) ∧
    (ckintCall (some 0) [""]).2.1 = RunRes.userQuit ∧
    ckintCall (some 3) [""] = ([ckintPromptMsg], RunRes.ok 3, []) :=
  ⟨rfl, rfl, rfl⟩

/-- C3: the claim asserts that with no regular expression configured a fresh
`CKSTR` accepts any text verbatim, raising nothing but Invalid/UserQuit.
`CKSTR.__call__` only assigns `self.regexp` when the parameter is not
`None`, so on a fresh instance `validate` reads an unset attribute and
raises `AttributeError`, which the loop's `except Invalid` does not catch:
the call aborts. Had the attribute been `None`, text would be accepted
verbatim, and a configured pattern matches from position 0 as claimed. -/
theorem ckstr_fresh_instance_attribute_error :
    ckstrValidate none "hello" = Except.error PyErr.attrError ∧
    (ckstrCall none none ckintPromptMsg "h" "e" none ["hello"]).2.1 =
      RunRes.fatal PyErr.attrError ∧
    ckstrValidate (some none) "hello" = Except.ok "hello" ∧
    ckstrValidate (some (some (fun t => pyStartswith t "ab"))) "abc" =
      Except.ok "abc" ∧
    ckstrValidate (some (some (fun t => pyStartswith t "ab"))) "zab" =
      Except.error (PyErr.invalid none) :=
  ⟨rfl, rfl, rfl, rfl, rfl⟩

/-- C4 counterexample: the claim asserts case-insensitive prefix matching,
so that an item containing uppercase letters is still matchable; but
`CKITEM.validate` lowercases only the *input* and tests
`item.startswith(text_lower)` against the item verbatim. With the single
item `"THIS"` and input `"THIS"`, case-insensitive matching would return
the unique match `"THIS"`; the code finds zero matches and signals the
text-form Invalid. -/
theorem ckitem_uppercase_item_unmatchable :
    ckitemValidate ["THIS"] "THIS" =
      Except.error (PyErr.invalid (some InputType.text)) ∧
    ckitemValidate ["THIS"] "THIS" ≠ Except.ok "THIS" :=
  ⟨rfl, by decide⟩

/-- C8: `CKITEM.__call__` with `choices=None` and `CKKEYWD.__call__` with
`keywords=None` raise `ValueError` — a configuration error distinct from
Invalid and UserQuit — immediately: no output (not even the menu or a
prompt) is produced and no input line is consumed. -/
theorem missing_required_parameter_config_error
    (label : Option String) (invisible : Option (List String))
    (pm ht et : String) (default : Option String) (lines : List String) :
    ckitemCall label none invisible pm ht et default lines =
      ([], RunRes.configError, lines) ∧
    ckkeywdCall none pm ht et default lines =
      ([], RunRes.configError, lines) :=
  ⟨rfl, rfl⟩

/-- C9: no rule's `validate` body contains an attribute assignment, so
with the instance state passed explicitly, the state comes back unchanged
and an immediate second call on the returned state with the same text
yields the same result — for the base rule and all eleven concrete rules
(date, integer, range, string, menu-item, keyword, path, time, yes/no,
group-name, user-name). -/
theorem validate_deterministic_no_mutation
    (items kws groups users : List String) (lower upper : Int)
    (st : CkstrRegexpAttr)
    (strptime : String → String → Option PyDateTime) (fmt : String)
    (pathRoot pathAbsolute : String → String) (text : String) :
    ((ckuiValidateS text).2 = () ∧
      (ckuiValidateS text).1 = (ckuiValidateS text).1) ∧
    ((ckdateValidateS strptime fmt text).2 = fmt ∧
      (ckdateValidateS strptime (ckdateValidateS strptime fmt text).2
          text).1 = (ckdateValidateS strptime fmt text).1) ∧
    ((ckintValidateS text).2 = () ∧
      (ckintValidateS text).1 = (ckintValidateS text).1) ∧
    ((ckrangeValidateS lower upper text).2 = (lower, upper) ∧
      (ckrangeValidateS (ckrangeValidateS lower upper text).2.1
          (ckrangeValidateS lower upper text).2.2 text).1 =
        (ckrangeValidateS lower upper text).1) ∧
    ((ckstrValidateS st text).2 = st ∧
      (ckstrValidateS (ckstrValidateS st text).2 text).1 =
        (ckstrValidateS st text).1) ∧
    ((ckitemValidateS items text).2 = items ∧
      (ckitemValidateS (ckitemValidateS items text).2 text).1 =
        (ckitemValidateS items text).1) ∧
    ((ckkeywdValidateS kws text).2 = kws ∧
      (ckkeywdValidateS (ckkeywdValidateS kws text).2 text).1 =
        (ckkeywdValidateS kws text).1) ∧
    ((ckpathValidateS pathRoot pathAbsolute text).2 = () ∧
      (ckpathValidateS pathRoot pathAbsolute text).1 =
        (ckpathValidateS pathRoot pathAbsolute text).1) ∧
    ((cktimeValidateS strptime fmt text).2 = fmt ∧
      (cktimeValidateS strptime (cktimeValidateS strptime fmt text).2
          text).1 = (cktimeValidateS strptime fmt text).1) ∧
    ((ckyornValidateS text).2 = () ∧
      (ckyornValidateS text).1 = (ckyornValidateS text).1) ∧
    ((ckgidValidateS groups text).2 = groups ∧
      (ckgidValidateS (ckgidValidateS groups text).2 text).1 =
        (ckgidValidateS groups text).1) ∧
    ((ckuidValidateS users text).2 = users ∧
      (ckuidValidateS (ckuidValidateS users text).2 text).1 =
        (ckuidValidateS users text).1) :=
  ⟨⟨rfl, rfl⟩, ⟨rfl, rfl⟩, ⟨rfl, rfl⟩, ⟨rfl, rfl⟩, ⟨rfl, rfl⟩, ⟨rfl, rfl⟩,
    ⟨rfl, rfl⟩, ⟨rfl, rfl⟩, ⟨rfl, rfl⟩, ⟨rfl, rfl⟩, ⟨rfl, rfl⟩, ⟨rfl, rfl⟩⟩

/-- C4 (amended): integer inputs index the combined list 1-based, signalling
the numeric-form Invalid out of bounds; non-integer inputs are *lowercased*
and then matched as a literal prefix against each item of the combined list
verbatim (an item matches exactly when the item itself starts with the
lowercased input — items are not lowercased, so an item containing
uppercase letters matches only if the lowercased input is a prefix of it
as written); a unique match is returned, zero or multiple matches signal
the text-form Invalid. -/
theorem ckitem_validate_characterization (items : List String)
    (text : String) :
    (∀ n : Int, pyInt text = some n →
      ((1 ≤ n ∧ n ≤ (items.length : Int)) →
        ckitemValidate items text =
          Except.ok (items.getD (n - 1).toNat "")) ∧
      (¬(1 ≤ n ∧ n ≤ (items.length : Int)) →
        ckitemValidate items text =
          Except.error (PyErr.invalid (some InputType.numeric)))) ∧
    (pyInt text = none →
      (∀ m, prefixMatches items text = [m] →
        ckitemValidate items text = Except.ok m) ∧
      ((prefixMatches items text).length ≠ 1 →
        ckitemValidate items text =
          Except.error (PyErr.invalid (some InputType.text)))) ∧
    (∀ item, item ∈ prefixMatches items text ↔
      item ∈ items ∧ pyStartswith item (pyLower text) = true) := by
  refine ⟨?_, ?_, ?_⟩
  · intro n hn
    exact ⟨fun hb => by simp [ckitemValidate, hn, hb],
      fun hb => by simp [ckitemValidate, hn, hb]⟩
  · intro hn
    constructor
    · intro m hm
      simp [ckitemValidate, hn, hm]
    · intro hlen
      rcases hpm : prefixMatches items text with _ | ⟨m, _ | ⟨m2, ms⟩⟩
      · simp [ckitemValidate, hn, hpm]
      · exact absurd (by simp [hpm]) hlen
      · simp [ckitemValidate, hn, hpm]
  · intro item
    simp [prefixMatches, List.mem_filter]

/-- Witness for the amended C4 theorem: with items `["this", "that"]`,
input `"that"` prefix-matches uniquely and input `"2"` indexes the second
item. -/
theorem ckitem_validate_characterization_witness :
    ckitemValidate ["this", "that"] "that" = Except.ok "that" ∧
    ckitemValidate ["this", "that"] "2" = Except.ok "that" :=
  ⟨((ckitem_validate_characterization ["this", "that"] "that").2.1 rfl).1
      "that" rfl,
    ((ckitem_validate_characterization ["this", "that"] "2").1 2 rfl).1
      (by decide)⟩

/-- C5: in every loop iteration of the shared loop and of the menu loop,
an input line whose lowercase form is `q` or `quit` raises `UserQuit` with
the rest of the input left unread, and end-of-input (`EOFError`) likewise
raises `UserQuit`; in neither case is any value returned. -/
theorem quit_or_eof_raises_userquit {V : Type} [Inhabited V]
    (validate : String → Except PyErr V) (truthy : V → Bool)
    (pm ht et : String) (default : Option V) (items menu : List String)
    (label : Option String) (dflt : Option String) (a : String)
    (lines : List String) (h : pyLower a = "q" ∨ pyLower a = "quit") :
    ckuiRunAux validate truthy pm ht et default (a :: lines) none =
      ([pm], RunRes.userQuit, lines) ∧
    ckuiRunAux validate truthy pm ht et default [] none =
      ([pm], RunRes.userQuit, []) ∧
    ckitemRunAux items label menu pm ht et dflt (a :: lines) none =
      ([pm], RunRes.userQuit, lines) ∧
    ckitemRunAux items label menu pm ht et dflt [] none =
      ([pm], RunRes.userQuit, []) := by
  have hq : isQuit a = true := by
    simp [isQuit]
    exact h
  refine ⟨?_, ?_, ?_, ?_⟩ <;> simp [ckuiRunAux, ckitemRunAux, hq]

/-- Witness for C5: `CKINT`'s loop on input `"Q"` quits leaving the next
line unread, as does the menu loop; both quit at end-of-input. -/
theorem quit_or_eof_raises_userquit_witness :
    ckuiRunAux ckintValidate intTruthy "p" "h" "e" none ["Q", "next"] none =
      (["p"], RunRes.userQuit, ["next"]) ∧
    ckuiRunAux ckintValidate intTruthy "p" "h" "e" none [] none =
      (["p"], RunRes.userQuit, []) ∧
    ckitemRunAux ["alpha"] none ["alpha"] "p" "h" "e" none ["Q", "next"]
      none = (["p"], RunRes.userQuit, ["next"]) ∧
    ckitemRunAux ["alpha"] none ["alpha"] "p" "h" "e" none [] none =
      (["p"], RunRes.userQuit, []) :=
  quit_or_eof_raises_userquit ckintValidate intTruthy "p" "h" "e" none
    ["alpha"] ["alpha"] none none "Q" ["next"] (Or.inl (by decide))

/-- C6: `CKYORN.validate` sends every input whose lowercase form is `y` or
`yes` to `"yes"`, every input whose lowercase form is `n` or `no` to
`"no"`, and signals Invalid on everything else. -/
theorem ckyorn_canonicalization (text : String) :
    ((pyLower text = "y" ∨ pyLower text = "yes") →
      ckyornValidate text = Except.ok "yes") ∧
    ((pyLower text = "n" ∨ pyLower text = "no") →
      ckyornValidate text = Except.ok "no") ∧
    (¬(pyLower text = "y" ∨ pyLower text = "yes" ∨ pyLower text = "n" ∨
        pyLower text = "no") →
      ckyornValidate text = Except.error (PyErr.invalid none)) := by
  refine ⟨?_, ?_, ?_⟩ <;> intro h
  · rcases h with h | h <;> simp [ckyornValidate, h]
  · rcases h with h | h <;> simp [ckyornValidate, h]
  · push_neg at h
    obtain ⟨h1, h2, h3, h4⟩ := h
    simp [ckyornValidate, h1, h2, h3, h4]

/-- Witness for C6: `"YES"` canonicalizes to `"yes"`, `"No"` to `"no"`,
and `"bad"` signals Invalid. -/
theorem ckyorn_canonicalization_witness :
    ckyornValidate "YES" = Except.ok "yes" ∧
    ckyornValidate "No" = Except.ok "no" ∧
    ckyornValidate "bad" = Except.error (PyErr.invalid none) :=
  ⟨(ckyorn_canonicalization "YES").1 (Or.inr (by decide)),
    (ckyorn_canonicalization "No").2.1 (Or.inr (by decide)),
    (ckyorn_canonicalization "bad").2.2 (by decide)⟩

/-- C7: `CKRANGE.validate` returns exactly the integers the input parses to
that lie within the inclusive bounds, signals Invalid on every parse
failure or out-of-bounds value, interpolates the configured bounds into
the error text, and the bounds default to the 32-bit signed extremes. -/
theorem ckrange_validate_characterization (lower upper : Int)
    (text : String) (v : Int) :
    (ckrangeValidate lower upper text = Except.ok v ↔
      (pyInt text = some v ∧ lower ≤ v ∧ v ≤ upper)) ∧
    (ckrangeValidate lower upper text = Except.error (PyErr.invalid none) ↔
      ¬∃ w, pyInt text = some w ∧ lower ≤ w ∧ w ≤ upper) ∧
    (∃ s1 s2 s3, ckrangeError lower upper =
      s1 ++ toString lower ++ s2 ++ toString upper ++ s3) ∧
    ckrangeLowerDefault = -(2 ^ 31) ∧ ckrangeUpperDefault = 2 ^ 31 - 1 := by
  refine ⟨?_, ?_, ⟨"ERROR - Please enter an integer between ", " and ", ".",
    rfl⟩, rfl, rfl⟩
  · cases hp : pyInt text with
    | none => simp [ckrangeValidate, hp]
    | some w =>
      by_cases hb : lower ≤ w ∧ w ≤ upper
      · simp [ckrangeValidate, hp, hb]
        rintro rfl
        exact hb
      · simp [ckrangeValidate, hp, hb]
        push_neg at hb
        rintro rfl
        exact hb
  · cases hp : pyInt text with
    | none => simp [ckrangeValidate, hp]
    | some w =>
      by_cases hb : lower ≤ w ∧ w ≤ upper
      · simp [ckrangeValidate, hp, hb]
      · simp [ckrangeValidate, hp, hb]

/-- C10: the quit check precedes validation in each iteration of both
loops — on a quit token the outcome is `UserQuit`, is identical for any
two `validate` functions (so the line is never passed to `validate`), and
in particular a menu item whose text is `"q"` can never be selected by
typing it, while its numeric index still selects it. -/
theorem quit_checked_before_validate {V : Type} [Inhabited V]
    (validate validate2 : String → Except PyErr V) (truthy : V → Bool)
    (pm ht et : String) (default : Option V) (items menu : List String)
    (label : Option String) (dflt : Option String) (a : String)
    (lines : List String) (h : pyLower a = "q" ∨ pyLower a = "quit") :
    (ckuiRunAux validate truthy pm ht et default (a :: lines) none).2.1 =
      RunRes.userQuit ∧
    ckuiRunAux validate truthy pm ht et default (a :: lines) none =
      ckuiRunAux validate2 truthy pm ht et default (a :: lines) none ∧
    (ckitemRunAux items label menu pm ht et dflt (a :: lines) none).2.1 =
      RunRes.userQuit ∧
    ckitemValidate ["yes", "q"] "2" = Except.ok "q" := by
  have hq : isQuit a = true := by
    simp [isQuit]
    exact h
  refine ⟨?_, ?_, ?_, rfl⟩ <;> simp [ckuiRunAux, ckitemRunAux, hq]

/-- Witness for C10: typing `"qUIT"` quits the loop whatever the validate
function — here `CKYORN`'s and the base rule's give identical outcomes —
and `"q"` as a menu item is reachable via its index `2`. -/
theorem quit_checked_before_validate_witness :
    (ckuiRunAux ckyornValidate strTruthy "p" "h" "e" none ["qUIT"]
      none).2.1 = RunRes.userQuit ∧
    ckuiRunAux ckyornValidate strTruthy "p" "h" "e" none ["qUIT"] none =
      ckuiRunAux ckuiValidate strTruthy "p" "h" "e" none ["qUIT"] none ∧
    (ckitemRunAux ["yes", "q"] none ["yes", "q"] "p" "h" "e" none ["qUIT"]
      none).2.1 = RunRes.userQuit ∧
    ckitemValidate ["yes", "q"] "2" = Except.ok "q" :=
  quit_checked_before_validate ckyornValidate ckuiValidate strTruthy
    "p" "h" "e" none ["yes", "q"] ["yes", "q"] none none "qUIT" []
    (Or.inr (by decide))

end Clux
